import Mathlib

/-!
# Adaptive quality / frame-pacing controller of `src/main.js`

Shallow embedding of the quality-adaptive rendering controller of the
WebGL visualizer in `src/main.js`: the FPS estimator `updateFPS`, the
quality adjustment it performs once per 1-second window, the parameter
derivation `updateQualitySettings`, the manual `cycleQuality` step, the
frame pacer inside `animate`, and the two battery-mode entry points.

JavaScript numbers are modelled as rationals (`ℚ`); the frame counter and
the FPS reading are natural numbers (the counter only ever holds integer
counts); the quality level is the JavaScript string stored in the global
`qualityLevel`.  DOM notifications, shader compilation and the renderer
itself are external side effects and are not part of the state.
-/

/-- The three shader uniforms written by `updateQualitySettings`
(`quality_factor`, `iteration_count`, `detail_level` in `src/main.js`). -/
structure Uniforms where
  quality_factor : ℚ
  iteration_count : ℚ
  detail_level : ℚ
  deriving DecidableEq

/-- Per-call environment: device class, viewport size, and the
high-refresh-rate hint (`window.screen.refreshRate > 90`). -/
structure Env where
  isMobile : Bool
  innerWidth : ℕ
  innerHeight : ℕ
  highRefresh : Bool
  deriving DecidableEq

/-- The module-level mutable state of `src/main.js` touched by the
controller: `qualityLevel`, `batteryMode`, `lastFrameTime` (shared by the
FPS window and the frame pacer), `frameCount`, `fps`, the shader uniforms,
and `uniforms.time`. -/
structure AppState where
  qualityLevel : String
  batteryMode : Bool
  lastFrameTime : ℚ
  frameCount : ℕ
  fps : ℕ
  uniforms : Uniforms
  timeUniform : ℚ
  deriving DecidableEq

/-- `Math.min(1.0, 1920 / window.innerWidth)` from `updateQualitySettings`
(src/main.js line 244), written as a case split so that `innerWidth = 0`
yields 1, as JavaScript division by zero yields Infinity; the two forms
agree on every natural width. -/
def resolutionScale (innerWidth : ℕ) : ℚ :=
  if innerWidth ≤ 1920 then 1 else 1920 / (innerWidth : ℚ)

/-- `updateQualitySettings` (src/main.js lines 195-246) as a function of the
current level string, the device flag, the viewport, and the previous
uniforms (which an unrecognized level leaves in place: the `switch` has no
default case).  The `wasUltra` flag only gates a notification and is
omitted. -/
def updateQualitySettings (qualityLevel : String) (isMobile : Bool)
    (innerWidth innerHeight : ℕ) (u : Uniforms) : Uniforms :=
  let u : Uniforms :=
    if qualityLevel = "low" then
      ⟨1/4, if isMobile then 15 else 25, 3/10⟩
    else if qualityLevel = "medium" then
      ⟨1/2, if isMobile then 25 else 40, 3/5⟩
    else if qualityLevel = "high" then
      ⟨4/5, if isMobile then 40 else 60, 4/5⟩
    else if qualityLevel = "ultra" then
      ⟨1, if isMobile then 50 else 75, 3/2⟩
    else u
  let screenArea : ℕ := innerWidth * innerHeight
  let u : Uniforms :=
    if 2073600 < screenArea ∧ isMobile = false then
      { u with quality_factor := u.quality_factor * (7/10),
               iteration_count := u.iteration_count * (4/5) }
    else u
  { u with quality_factor := u.quality_factor * resolutionScale innerWidth }

/-- A quality transition as written throughout `src/main.js`: assign
`qualityLevel` and call `updateQualitySettings()`. -/
def setLevel (env : Env) (level : String) (s : AppState) : AppState :=
  { s with qualityLevel := level,
           uniforms := updateQualitySettings level env.isMobile
             env.innerWidth env.innerHeight s.uniforms }

/-- The per-window quality adjustment executed inside `updateFPS`
(src/main.js lines 577-610) once the 1-second window has elapsed: the
demotion chain, then the promotion chain, then the battery-mode override,
each reading `qualityLevel` as the previous block left it. -/
def adjustQuality (env : Env) (s : AppState) : AppState :=
  let s :=
    if s.batteryMode = false then
      if s.fps < 25 ∧ s.qualityLevel = "ultra" then setLevel env "high" s
      else if s.fps < 20 ∧ s.qualityLevel = "high" then setLevel env "medium" s
      else if s.fps < 15 ∧ s.qualityLevel = "medium" then setLevel env "low" s
      else s
    else s
  let s :=
    if 55 < s.fps ∧ s.qualityLevel = "low" ∧ s.batteryMode = false then
      setLevel env "medium" s
    else if 58 < s.fps ∧ s.qualityLevel = "medium" ∧ s.batteryMode = false then
      setLevel env "high" s
    else s
  if s.batteryMode = true ∧ s.fps < 30 ∧ s.qualityLevel ≠ "low" then
    setLevel env "low" s
  else s

/-- `updateFPS` (src/main.js lines 570-612).  Returns the new state
together with the FPS reading assigned to the global `fps` when the
1-second window has elapsed (the `Option` makes that emission explicit;
outside a window boundary nothing is emitted). -/
def updateFPS (env : Env) (timestamp : ℚ) (s : AppState) : AppState × Option ℕ :=
  let s := { s with frameCount := s.frameCount + 1 }
  if 1000 ≤ timestamp - s.lastFrameTime then
    let reading := s.frameCount
    let s := { s with fps := reading, frameCount := 0, lastFrameTime := timestamp }
    (adjustQuality env s, some reading)
  else
    (s, none)

/-- Feed a list of timestamps to `updateFPS` in order, collecting the
emitted FPS readings. -/
def runFPS (env : Env) (ts : List ℚ) (s : AppState) : AppState × List ℕ :=
  match ts with
  | [] => (s, [])
  | t :: rest =>
    ((runFPS env rest (updateFPS env t s).1).1,
     (updateFPS env t s).2.toList ++ (runFPS env rest (updateFPS env t s).1).2)

/-- Timestamps spaced 1ms apart covering the 1000ms span after `t0`. -/
def windowTimestamps (t0 : ℚ) : List ℚ :=
  (List.range 1000).map (fun (i : ℕ) => t0 + ((i : ℚ) + 1))

/-- `animate` (src/main.js lines 1427-1453): one animation-frame callback.
Returns the new state and whether this invocation rendered (`true`) or
skipped (`false`); `requestAnimationFrame` and `renderer.render` are
external. -/
def animate (env : Env) (timestamp : ℚ) (s : AppState) : AppState × Bool :=
  let s := (updateFPS env timestamp s).1
  let targetFrameTime : ℚ := if s.batteryMode then 33 else 1667/100
  if timestamp - s.lastFrameTime < targetFrameTime - 1 then (s, false)
  else if env.isMobile = true ∧ s.qualityLevel = "low" ∧
      timestamp - s.lastFrameTime < 20 then (s, false)
  else if env.highRefresh = true ∧ s.batteryMode = false ∧
      timestamp - s.lastFrameTime < 12 then (s, false)
  else
    ({ s with lastFrameTime := timestamp, timeUniform := timestamp / 1000 }, true)

/-- The quality list of `cycleQuality` (src/main.js line 489). -/
def qualities : List String := ["low", "medium", "high", "ultra"]

/-- `qualities.indexOf(level)`: position of the level, `-1` when absent. -/
def qualityIndex (level : String) : ℤ :=
  if level = "low" then 0
  else if level = "medium" then 1
  else if level = "high" then 2
  else if level = "ultra" then 3
  else -1

/-- The successor level computed by `cycleQuality`
(`qualities[(currentIndex + 1) % qualities.length]`). -/
def nextQuality (level : String) : String :=
  qualities.getD ((qualityIndex level + 1) % 4).toNat "low"

/-- `cycleQuality` (src/main.js lines 488-514): step `qualityLevel` to the
next entry of `qualities` (wrapping) and recompute the uniforms; the
notification it shows is external. -/
def cycleQuality (env : Env) (s : AppState) : AppState :=
  setLevel env (nextQuality s.qualityLevel) s

/-- The GUI battery-mode toggle handler (src/main.js lines 1292-1298):
store the flag, and when it is switched on force low quality and
recompute the uniforms. -/
def batteryModeOnChange (env : Env) (value : Bool) (s : AppState) : AppState :=
  let s := { s with batteryMode := value }
  if value then setLevel env "low" s else s

/-- The battery-API callback inside `detectMobile` (src/main.js lines
181-189): `batteryMode = battery.level < 0.3 || !battery.charging`, then
force low quality when the flag is set. -/
def batteryDetect (env : Env) (level : ℚ) (charging : Bool) (s : AppState) : AppState :=
  let b : Bool := decide (level < 3/10) || !charging
  let s := { s with batteryMode := b }
  if b then setLevel env "low" s else s

/-- Apply a stream of FPS readings to the per-window adjustment, as the
window boundary of `updateFPS` would (each reading is stored in `fps`
before the adjustment runs). -/
def runReadings (env : Env) (fs : List ℕ) (s : AppState) : AppState :=
  match fs with
  | [] => s
  | f :: rest => runReadings env rest (adjustQuality env { s with fps := f })

example :
    (adjustQuality ⟨false, 1920, 1080, false⟩
      ⟨"ultra", true, 0, 0, 10, ⟨1, 75, 3/2⟩, 0⟩).qualityLevel = "low" := by
  simp [adjustQuality, setLevel, String.reduceEq]

example :
    updateQualitySettings "high" false 3840 2160 ⟨1, 60, 4/5⟩ =
      ⟨(4/5) * (7/10) * (1/2), 48, 4/5⟩ := by
  simp [updateQualitySettings, resolutionScale, String.reduceEq]
  norm_num

example : nextQuality "ultra" = "low" := by
  simp [nextQuality, qualityIndex, qualities, String.reduceEq]

theorem setLevel_qualityLevel (env : Env) (level : String) (s : AppState) :
    (setLevel env level s).qualityLevel = level := rfl

/-- The per-window adjustment only touches `qualityLevel` and the uniforms:
counter, window start, battery flag and the stored reading are unchanged. -/
theorem adjustQuality_preserves (env : Env) (s : AppState) :
    (adjustQuality env s).frameCount = s.frameCount ∧
    (adjustQuality env s).lastFrameTime = s.lastFrameTime ∧
    (adjustQuality env s).batteryMode = s.batteryMode ∧
    (adjustQuality env s).fps = s.fps := by
  simp only [adjustQuality, setLevel]
  split_ifs <;> simp

/-- One call of `updateFPS`: a reading is emitted exactly when
`timestamp - lastFrameTime ≥ 1000`, in which case it equals the number of
calls counted in the window (including this one), the counter resets to 0
and the window start moves to the current timestamp. -/
theorem updateFPS_spec (env : Env) (t : ℚ) (s : AppState) :
    (updateFPS env t s).2 =
      (if 1000 ≤ t - s.lastFrameTime then some (s.frameCount + 1) else none) ∧
    (updateFPS env t s).1.frameCount =
      (if 1000 ≤ t - s.lastFrameTime then 0 else s.frameCount + 1) ∧
    (updateFPS env t s).1.lastFrameTime =
      (if 1000 ≤ t - s.lastFrameTime then t else s.lastFrameTime) := by
  simp only [updateFPS]
  split_ifs with h
  · refine ⟨rfl, ?_, ?_⟩
    · exact (adjustQuality_preserves env _).1
    · exact (adjustQuality_preserves env _).2.1
  · exact ⟨rfl, rfl, rfl⟩

theorem runFPS_append (env : Env) (l1 l2 : List ℚ) (s : AppState) :
    runFPS env (l1 ++ l2) s =
      ((runFPS env l2 (runFPS env l1 s).1).1,
       (runFPS env l1 s).2 ++ (runFPS env l2 (runFPS env l1 s).1).2) := by
  induction l1 generalizing s with
  | nil => simp [runFPS]
  | cons t rest ih => simp [runFPS, ih]

/-- While every timestamp stays within 1000ms of the window start, no
reading is emitted and the counter just accumulates the calls. -/
theorem runFPS_no_emit (env : Env) (ts : List ℚ) :
    ∀ s : AppState, (∀ t ∈ ts, t - s.lastFrameTime < 1000) →
      runFPS env ts s = ({ s with frameCount := s.frameCount + ts.length }, []) := by
  induction ts with
  | nil => intro s _; simp [runFPS]
  | cons t rest ih =>
    intro s h
    have ht : ¬ (1000 ≤ t - s.lastFrameTime) := by
      have := h t (by simp)
      linarith
    have hstep : updateFPS env t s = ({ s with frameCount := s.frameCount + 1 }, none) := by
      simp only [updateFPS]
      rw [if_neg ht]
    have hrest := ih { s with frameCount := s.frameCount + 1 }
      (by intro x hx; exact h x (List.mem_cons_of_mem _ hx))
    simp only [runFPS, hstep, hrest, Option.toList_none, List.nil_append, List.length_cons]
    have hn : s.frameCount + 1 + rest.length = s.frameCount + (rest.length + 1) := by omega
    rw [hn]

/-- Feeding the 1000 timestamps `t0 + 1, …, t0 + 1000` to a fresh window
starting at `t0` emits exactly the one reading `1000`. -/
theorem runFPS_window (env : Env) (t0 : ℚ) (q : String) (b : Bool)
    (f : ℕ) (u : Uniforms) (tu : ℚ) :
    (runFPS env (windowTimestamps t0) ⟨q, b, t0, 0, f, u, tu⟩).2 = [1000] ∧
    (windowTimestamps t0).length = 1000 := by
  have hsplit : windowTimestamps t0 =
      ((List.range 999).map (fun (i : ℕ) => t0 + ((i : ℚ) + 1))) ++ [t0 + 1000] := by
    unfold windowTimestamps
    rw [show (1000 : ℕ) = 999 + 1 from rfl, List.range_succ, List.map_append,
      List.map_singleton]
    norm_num
  have hfront : ∀ t ∈ (List.range 999).map (fun (i : ℕ) => t0 + ((i : ℚ) + 1)),
      t - (AppState.mk q b t0 0 f u tu).lastFrameTime < 1000 := by
    intro t htmem
    rcases List.mem_map.mp htmem with ⟨i, hi, rfl⟩
    have h9 : i < 999 := List.mem_range.mp hi
    have h9q : (i : ℚ) < 999 := by exact_mod_cast h9
    show t0 + ((i : ℚ) + 1) - t0 < 1000
    linarith
  constructor
  · rw [hsplit, runFPS_append, runFPS_no_emit env _ _ hfront]
    simp only [List.length_map, List.length_range, List.nil_append]
    simp only [runFPS, updateFPS]
    rw [if_pos (show (1000 : ℚ) ≤ t0 + 1000 - t0 by linarith)]
    simp
  · rw [hsplit]
    simp

/-- C1: for any 1ms-spaced strictly increasing timestamp sequence covering
a 1000ms span fed to `updateFPS` from a fresh window, exactly one FPS
reading is emitted and it equals the number of calls in the window (1000);
and on each single call a reading is emitted exactly when
`timestampMs - windowStartMs ≥ 1000`, at which point the frame counter
resets to 0 and the window start is set to the current timestamp. -/
theorem fps_estimator_window_spec (env : Env) (t : ℚ) (s : AppState) (t0 : ℚ)
    (q : String) (b : Bool) (f : ℕ) (u : Uniforms) (tu : ℚ) :
    ((updateFPS env t s).2 =
      (if 1000 ≤ t - s.lastFrameTime then some (s.frameCount + 1) else none)) ∧
    ((updateFPS env t s).1.frameCount =
      (if 1000 ≤ t - s.lastFrameTime then 0 else s.frameCount + 1)) ∧
    ((updateFPS env t s).1.lastFrameTime =
      (if 1000 ≤ t - s.lastFrameTime then t else s.lastFrameTime)) ∧
    (runFPS env (windowTimestamps t0) ⟨q, b, t0, 0, f, u, tu⟩).2 = [1000] ∧
    (windowTimestamps t0).length = 1000 :=
  ⟨(updateFPS_spec env t s).1, (updateFPS_spec env t s).2.1,
   (updateFPS_spec env t s).2.2, (runFPS_window env t0 q b f u tu).1,
   (runFPS_window env t0 q b f u tu).2⟩

theorem setLevel_batteryMode (env : Env) (level : String) (s : AppState) :
    (setLevel env level s).batteryMode = s.batteryMode := rfl

theorem setLevel_fps (env : Env) (level : String) (s : AppState) :
    (setLevel env level s).fps = s.fps := rfl

/-- The level produced by the per-window adjustment, as a function of the
battery flag, the FPS reading and the current level only (the uniforms do
not feed back into the decision). -/
def adjustLevel (b : Bool) (f : ℕ) (q : String) : String :=
  let q1 :=
    if b = false then
      if f < 25 ∧ q = "ultra" then "high"
      else if f < 20 ∧ q = "high" then "medium"
      else if f < 15 ∧ q = "medium" then "low"
      else q
    else q
  let q2 :=
    if 55 < f ∧ q1 = "low" ∧ b = false then "medium"
    else if 58 < f ∧ q1 = "medium" ∧ b = false then "high"
    else q1
  if b = true ∧ f < 30 ∧ q2 ≠ "low" then "low" else q2

set_option maxHeartbeats 2000000 in
/-- Bridge: the level after `adjustQuality` is `adjustLevel` of the level
before it. -/
theorem adjustQuality_level_eq (env : Env) (s : AppState) :
    (adjustQuality env s).qualityLevel =
      adjustLevel s.batteryMode s.fps s.qualityLevel := by
  obtain ⟨q, b, t, c, f, u, tu⟩ := s
  simp only [adjustQuality, adjustLevel, setLevel]
  split_ifs <;> simp_all

/-- C2 (amended): when battery-saving mode is off, a single per-window
evaluation moves the quality level by at most one rank in the
Low < Medium < High < Ultra order. -/
theorem adjustQuality_one_rank_no_battery (env : Env) (q : String) (t : ℚ)
    (c : ℕ) (f : ℕ) (u : Uniforms) (tu : ℚ) :
    (qualityIndex (adjustQuality env ⟨q, false, t, c, f, u, tu⟩).qualityLevel
      - qualityIndex q).natAbs ≤ 1 := by
  rw [adjustQuality_level_eq]
  show (qualityIndex (adjustLevel false f q) - qualityIndex q).natAbs ≤ 1
  by_cases h1 : q = "low"
  · subst h1
    by_cases h55 : 55 < f
    · simp [adjustLevel, String.reduceEq, h55]
      decide
    · simp [adjustLevel, String.reduceEq, h55]
  by_cases h2 : q = "medium"
  · subst h2
    by_cases hf : f < 15
    · have h55 : ¬ 55 < f := by omega
      have h58 : ¬ 58 < f := by omega
      simp [adjustLevel, String.reduceEq, hf, h55, h58]
      decide
    · by_cases h58 : 58 < f
      · simp [adjustLevel, String.reduceEq, hf, h58]
        decide
      · simp [adjustLevel, String.reduceEq, hf, h58]
  by_cases h3 : q = "high"
  · subst h3
    by_cases hf : f < 20
    · have h58 : ¬ 58 < f := by omega
      simp [adjustLevel, String.reduceEq, hf, h58]
      decide
    · simp [adjustLevel, String.reduceEq, hf]
  by_cases h4 : q = "ultra"
  · subst h4
    by_cases hf : f < 25
    · simp [adjustLevel, String.reduceEq, hf]
      decide
    · simp [adjustLevel, String.reduceEq, hf]
  · simp [adjustLevel, String.reduceEq, h1, h2, h3, h4]

/-- C2 (counterexample): with battery saving on and an FPS reading of 10, a
single per-window evaluation takes Ultra directly to Low — a three-rank
jump, so the claimed at-most-one-rank bound fails for this combination of
`lastFps` and the battery-saving flag. -/
theorem adjustQuality_battery_rank_jump :
    (adjustQuality ⟨false, 1920, 1080, false⟩
        ⟨"ultra", true, 0, 0, 10, ⟨1, 75, 3/2⟩, 0⟩).qualityLevel = "low" ∧
    ¬ ((qualityIndex (adjustQuality ⟨false, 1920, 1080, false⟩
        ⟨"ultra", true, 0, 0, 10, ⟨1, 75, 3/2⟩, 0⟩).qualityLevel)
          - qualityIndex "ultra").natAbs ≤ 1 := by
  rw [adjustQuality_level_eq]
  constructor <;> decide

/-- C3: with battery saving on and an FPS reading below 30, one per-window
evaluation forces the quality level to Low from every starting level,
regardless of the promotion and demotion rules (which are skipped when the
battery flag is set). -/
theorem battery_override_forces_low (env : Env) (s : AppState)
    (hb : s.batteryMode = true) (hf : s.fps < 30) :
    (adjustQuality env s).qualityLevel = "low" := by
  rw [adjustQuality_level_eq, hb]
  simp only [adjustLevel, hf]
  split_ifs <;> simp_all

/-- C3 (witness): from Ultra with `lastFps = 10` in battery mode, one
evaluation yields Low. -/
theorem battery_override_forces_low_witness :
    (adjustQuality ⟨false, 1920, 1080, false⟩
      ⟨"ultra", true, 0, 0, 10, ⟨1, 75, 3/2⟩, 0⟩).qualityLevel = "low" :=
  battery_override_forces_low ⟨false, 1920, 1080, false⟩ _ rfl (by norm_num)

theorem adjustQuality_batteryMode (env : Env) (s : AppState) :
    (adjustQuality env s).batteryMode = s.batteryMode :=
  (adjustQuality_preserves env s).2.2.1

/-- The level reached by a stream of readings with battery saving off is
the fold of `adjustLevel` over the stream. -/
theorem runReadings_level (env : Env) (fs : List ℕ) :
    ∀ s : AppState, s.batteryMode = false →
      (runReadings env fs s).qualityLevel =
        fs.foldl (fun q f => adjustLevel false f q) s.qualityLevel := by
  induction fs with
  | nil => intro s _; rfl
  | cons f rest ih =>
    intro s hb
    have hb2 : (adjustQuality env { s with fps := f }).batteryMode = false := by
      rw [adjustQuality_batteryMode]
      exact hb
    have hql : (adjustQuality env { s with fps := f }).qualityLevel =
        adjustLevel false f s.qualityLevel := by
      rw [adjustQuality_level_eq]
      show adjustLevel s.batteryMode f s.qualityLevel = adjustLevel false f s.qualityLevel
      rw [hb]
    simp only [runReadings, List.foldl]
    rw [ih _ hb2, hql]

/-- The per-window adjustment never promotes to Ultra: if the level was not
Ultra before the evaluation it is not Ultra after it. -/
theorem adjustLevel_ne_ultra (b : Bool) (f : ℕ) (q : String) (hq : q ≠ "ultra") :
    adjustLevel b f q ≠ "ultra" := by
  unfold adjustLevel
  split_ifs <;> simp_all [String.reduceEq] <;>
    split_ifs <;> simp_all [String.reduceEq]

/-- C4 (counterexample): at the boundary reading 58 the Medium→High
promotion does not fire (the source tests `fps > 58`, strictly), so with
the stream [58, 58, 59] the level has not changed after the first reading
that is ≥ 58. -/
theorem promotion_at_58_does_not_fire :
    (58 : ℕ) ≤ 58 ∧
    (adjustQuality ⟨false, 1920, 1080, false⟩
      ⟨"medium", false, 0, 0, 58, ⟨1/2, 40, 3/5⟩, 0⟩).qualityLevel ≠ "high" ∧
    (adjustQuality ⟨false, 1920, 1080, false⟩
      ⟨"medium", false, 0, 0, 58, ⟨1/2, 40, 3/5⟩, 0⟩).qualityLevel = "medium" := by
  rw [adjustQuality_level_eq]
  refine ⟨by norm_num, ?_, ?_⟩ <;> decide

/-- C4 (amended): with battery saving off, the reading stream [58, 58, 59]
from Medium leaves the level at Medium after each 58 and promotes it to
High on 59, the first reading strictly above 58; the level stays High for
any further reading of at least 20 FPS, and an evaluation never promotes a
non-Ultra level to Ultra. -/
theorem promotion_stream_spec (env : Env) (t : ℚ) (c f0 : ℕ)
    (u : Uniforms) (tu : ℚ) :
    (runReadings env [58] ⟨"medium", false, t, c, f0, u, tu⟩).qualityLevel
      = "medium" ∧
    (runReadings env [58, 58] ⟨"medium", false, t, c, f0, u, tu⟩).qualityLevel
      = "medium" ∧
    (runReadings env [58, 58, 59] ⟨"medium", false, t, c, f0, u, tu⟩).qualityLevel
      = "high" ∧
    (∀ s : AppState, s.qualityLevel ≠ "ultra" →
      (adjustQuality env s).qualityLevel ≠ "ultra") ∧
    (∀ f : ℕ, 20 ≤ f →
      (adjustQuality env ⟨"high", false, t, c, f, u, tu⟩).qualityLevel = "high") := by
  refine ⟨?_, ?_, ?_, ?_, ?_⟩
  · rw [runReadings_level env _ _ rfl]
    show List.foldl (fun q f => adjustLevel false f q) "medium" [58] = "medium"
    decide
  · rw [runReadings_level env _ _ rfl]
    show List.foldl (fun q f => adjustLevel false f q) "medium" [58, 58] = "medium"
    decide
  · rw [runReadings_level env _ _ rfl]
    show List.foldl (fun q f => adjustLevel false f q) "medium" [58, 58, 59] = "high"
    decide
  · intro s hq
    rw [adjustQuality_level_eq]
    exact adjustLevel_ne_ultra _ _ _ hq
  · intro f hf
    rw [adjustQuality_level_eq]
    show adjustLevel false f "high" = "high"
    have h20 : ¬ f < 20 := by omega
    simp [adjustLevel, String.reduceEq, h20]

/-- C4 (witness): concrete instances of the amended statement. -/
theorem promotion_stream_spec_witness :
    (runReadings ⟨false, 1920, 1080, false⟩ [58, 58, 59]
      ⟨"medium", false, 0, 0, 60, ⟨1/2, 40, 3/5⟩, 0⟩).qualityLevel = "high" ∧
    (adjustQuality ⟨false, 1920, 1080, false⟩
      ⟨"low", false, 0, 0, 60, ⟨1/4, 25, 3/10⟩, 0⟩).qualityLevel ≠ "ultra" ∧
    (adjustQuality ⟨false, 1920, 1080, false⟩
      ⟨"high", false, 0, 0, 59, ⟨4/5, 60, 4/5⟩, 0⟩).qualityLevel = "high" :=
  ⟨(promotion_stream_spec ⟨false, 1920, 1080, false⟩ 0 0 60 ⟨1/2, 40, 3/5⟩ 0).2.2.1,
   (promotion_stream_spec ⟨false, 1920, 1080, false⟩ 0 0 60 ⟨1/4, 25, 3/10⟩ 0).2.2.2.1
     ⟨"low", false, 0, 0, 60, ⟨1/4, 25, 3/10⟩, 0⟩ (by decide),
   (promotion_stream_spec ⟨false, 1920, 1080, false⟩ 0 0 59 ⟨4/5, 60, 4/5⟩ 0).2.2.2.2
     59 (by norm_num)⟩

/-- C5: the manual cycle visits Low→Medium→High→Ultra→Low in fixed order,
its step depends only on the current level (not on FPS history or battery
state), and four applications return every valid level to its start. -/
theorem cycleQuality_cycle (env : Env) (s : AppState)
    (hq : s.qualityLevel ∈ qualities) :
    nextQuality "low" = "medium" ∧ nextQuality "medium" = "high" ∧
    nextQuality "high" = "ultra" ∧ nextQuality "ultra" = "low" ∧
    (cycleQuality env s).qualityLevel = nextQuality s.qualityLevel ∧
    (∀ s2 : AppState, s2.qualityLevel = s.qualityLevel →
      (cycleQuality env s2).qualityLevel = (cycleQuality env s).qualityLevel) ∧
    (cycleQuality env (cycleQuality env (cycleQuality env
      (cycleQuality env s)))).qualityLevel = s.qualityLevel := by
  have hstep : ∀ s2 : AppState,
      (cycleQuality env s2).qualityLevel = nextQuality s2.qualityLevel :=
    fun _ => rfl
  refine ⟨by decide, by decide, by decide, by decide, hstep s, ?_, ?_⟩
  · intro s2 h2
    rw [hstep, hstep, h2]
  · rw [hstep, hstep, hstep, hstep]
    simp only [qualities, List.mem_cons, List.not_mem_nil, or_false] at hq
    rcases hq with h | h | h | h <;> rw [h] <;> decide

/-- C7: parameter derivation is a pure function of (level, device flag,
viewport): for a valid level the result does not depend on the previous
uniforms (no hidden state), so two invocations with identical inputs agree
bit for bit and repeated invocation at the same level does not drift the
parameters.  (The battery flag is not an input of the derivation at all.) -/
theorem updateQualitySettings_pure (level : String) (m : Bool) (w h : ℕ)
    (hl : level ∈ qualities) :
    (∀ u1 u2 : Uniforms,
      updateQualitySettings level m w h u1 = updateQualitySettings level m w h u2) ∧
    (∀ u : Uniforms,
      updateQualitySettings level m w h (updateQualitySettings level m w h u) =
        updateQualitySettings level m w h u) := by
  have key : ∀ u1 u2 : Uniforms,
      updateQualitySettings level m w h u1 = updateQualitySettings level m w h u2 := by
    intro u1 u2
    simp only [qualities, List.mem_cons, List.not_mem_nil, or_false] at hl
    rcases hl with h1 | h1 | h1 | h1 <;> subst h1 <;>
      simp [updateQualitySettings, String.reduceEq]
  exact ⟨key, fun u => key _ u⟩

/-- C7 (witness): at level "high" on a desktop 4K viewport the derivation
gives the same parameters from two different prior states. -/
theorem updateQualitySettings_pure_witness :
    updateQualitySettings "high" false 3840 2160 ⟨1, 75, 3/2⟩ =
      updateQualitySettings "high" false 3840 2160 ⟨1/4, 15, 3/10⟩ :=
  (updateQualitySettings_pure "high" false 3840 2160 (by decide)).1
    ⟨1, 75, 3/2⟩ ⟨1/4, 15, 3/10⟩

/-- C6 (counterexample): after deriving the parameters for level "high" on
a 4K desktop viewport, passing the unrecognized level "turbo" mutates the
stored parameters — the `switch` matches no case (and no error condition
exists in the source), but the post-switch multipliers still run — so the
parameters do not remain at the prior level's values. -/
theorem invalid_level_mutates :
    updateQualitySettings "turbo" false 3840 2160
        (updateQualitySettings "high" false 3840 2160 ⟨1, 60, 4/5⟩) ≠
      updateQualitySettings "high" false 3840 2160 ⟨1, 60, 4/5⟩ := by
  simp [updateQualitySettings, resolutionScale, String.reduceEq, Uniforms.mk.injEq]
  norm_num

/-- C6 (amended): an unrecognized level name is silently ignored: the
per-level assignment is skipped (there is no error condition in the
source), `detailLevel` always keeps its prior value, and on screens that
are not high-resolution (area ≤ 1920·1080, width ≤ 1920) all parameters
remain exactly at the prior values; but on a high-resolution desktop
screen the post-switch multipliers still rescale `iterationCount` (and
`qualityFactor`), so the state does mutate there. -/
theorem invalid_level_no_reset (level : String) (m : Bool) (w h : ℕ)
    (u : Uniforms) (hl : level ∉ qualities) :
    (updateQualitySettings level m w h u).detail_level = u.detail_level ∧
    (w * h ≤ 2073600 → w ≤ 1920 → updateQualitySettings level m w h u = u) ∧
    (m = false → 2073600 < w * h →
      (updateQualitySettings level m w h u).iteration_count =
        u.iteration_count * (4/5)) := by
  simp only [qualities, List.mem_cons, List.not_mem_nil, or_false] at hl
  push_neg at hl
  obtain ⟨hl1, hl2, hl3, hl4⟩ := hl
  refine ⟨?_, ?_, ?_⟩
  · simp only [updateQualitySettings, hl1, hl2, hl3, hl4, if_false]
    split_ifs <;> rfl
  · intro ha hw
    have hhr : ¬ (2073600 < w * h ∧ m = false) := by
      rintro ⟨hc, -⟩
      omega
    simp only [updateQualitySettings, resolutionScale, hl1, hl2, hl3, hl4,
      if_false, if_neg hhr, if_pos hw, mul_one]
  · intro hm ha
    subst hm
    simp only [updateQualitySettings, hl1, hl2, hl3, hl4, if_false]
    split_ifs with hc
    · rfl
    · exact absurd ⟨ha, by simp⟩ hc

/-- C6 (amended, witness): with a standard 1920×1080 viewport an invalid
level leaves the parameters untouched. -/
theorem invalid_level_no_reset_witness :
    (updateQualitySettings "turbo" false 1920 1080
      ⟨4/5, 60, 4/5⟩).detail_level = (4:ℚ)/5 ∧
    updateQualitySettings "turbo" false 1920 1080 ⟨4/5, 60, 4/5⟩ =
      ⟨4/5, 60, 4/5⟩ :=
  ⟨(invalid_level_no_reset "turbo" false 1920 1080 ⟨4/5, 60, 4/5⟩ (by decide)).1,
   (invalid_level_no_reset "turbo" false 1920 1080 ⟨4/5, 60, 4/5⟩ (by decide)).2.1
     (by norm_num) (by norm_num)⟩

theorem resolutionScale_bounds (w : ℕ) :
    0 ≤ resolutionScale w ∧ resolutionScale w ≤ 1 := by
  unfold resolutionScale
  split_ifs with hw
  · norm_num
  · have hw1 : (1920 : ℚ) < (w : ℚ) := by
      exact_mod_cast (by omega : 1920 < w)
    constructor
    · positivity
    · rw [div_le_one (by linarith)]
      linarith

theorem mul_unit_interval_bounds (c rs : ℚ) (h0 : 0 ≤ c) (h2 : c ≤ 2)
    (r0 : 0 ≤ rs) (r1 : rs ≤ 1) : 0 ≤ c * rs ∧ c * rs ≤ 2 :=
  ⟨mul_nonneg h0 r0, by nlinarith⟩

/-- C9: for every valid level and every device/viewport/battery
combination, the derived `qualityFactor` and `detailLevel` lie in [0, 2]
and the derived `iterationCount` is an integer-valued rational between 1
and 100, however the multipliers stack. -/
theorem derived_parameters_bounded (level : String) (m : Bool) (w h : ℕ)
    (u : Uniforms) (hl : level ∈ qualities) :
    (0 ≤ (updateQualitySettings level m w h u).quality_factor ∧
      (updateQualitySettings level m w h u).quality_factor ≤ 2) ∧
    (0 ≤ (updateQualitySettings level m w h u).detail_level ∧
      (updateQualitySettings level m w h u).detail_level ≤ 2) ∧
    (∃ n : ℕ, 1 ≤ n ∧ n ≤ 100 ∧
      (updateQualitySettings level m w h u).iteration_count = (n : ℚ)) := by
  obtain ⟨r0, r1⟩ := resolutionScale_bounds w
  simp only [qualities, List.mem_cons, List.not_mem_nil, or_false] at hl
  rcases hl with h1 | h1 | h1 | h1 <;> subst h1 <;> cases m <;>
    simp [updateQualitySettings, String.reduceEq] <;>
    (try split_ifs) <;>
    refine ⟨⟨?_, ?_⟩, by norm_num, ?_⟩ <;>
    first
      | nlinarith [r0, r1]
      | (refine ⟨15, ?_, ?_, ?_⟩ <;> norm_num <;> done)
      | (refine ⟨20, ?_, ?_, ?_⟩ <;> norm_num <;> done)
      | (refine ⟨25, ?_, ?_, ?_⟩ <;> norm_num <;> done)
      | (refine ⟨32, ?_, ?_, ?_⟩ <;> norm_num <;> done)
      | (refine ⟨40, ?_, ?_, ?_⟩ <;> norm_num <;> done)
      | (refine ⟨48, ?_, ?_, ?_⟩ <;> norm_num <;> done)
      | (refine ⟨50, ?_, ?_, ?_⟩ <;> norm_num <;> done)
      | (refine ⟨60, ?_, ?_, ?_⟩ <;> norm_num <;> done)
      | (refine ⟨75, ?_, ?_, ?_⟩ <;> norm_num <;> done)

/-- C9 (witness): level "ultra" on a mobile 4K-sized viewport. -/
theorem derived_parameters_bounded_witness :
    0 ≤ (updateQualitySettings "ultra" true 3840 2160
        ⟨0, 0, 0⟩).quality_factor ∧
    (updateQualitySettings "ultra" true 3840 2160 ⟨0, 0, 0⟩).quality_factor ≤ 2 :=
  (derived_parameters_bounded "ultra" true 3840 2160 ⟨0, 0, 0⟩ (by decide)).1

/-- C5 (witness): starting from Low, four manual cycles return to Low. -/
theorem cycleQuality_cycle_witness :
    (cycleQuality ⟨false, 1920, 1080, false⟩ (cycleQuality ⟨false, 1920, 1080, false⟩
      (cycleQuality ⟨false, 1920, 1080, false⟩ (cycleQuality ⟨false, 1920, 1080, false⟩
        ⟨"low", false, 0, 0, 60, ⟨1/4, 25, 3/10⟩, 0⟩)))).qualityLevel = "low" :=
  (cycleQuality_cycle ⟨false, 1920, 1080, false⟩
    ⟨"low", false, 0, 0, 60, ⟨1/4, 25, 3/10⟩, 0⟩ (by decide)).2.2.2.2.2.2

/-- C8 (counterexample): with the desktop 60fps target of 16.67ms, a call
16ms after the last render satisfies
`timestampMs - lastRenderTimeMs < targetIntervalMs` and yet renders — the
source only skips below `targetFrameTime - 1` — refuting
skip-exactly-when-below-target. -/
theorem pacer_renders_at_16ms :
    (16 : ℚ) - 0 < 1667/100 ∧
    (animate ⟨false, 1920, 1080, false⟩ 16
      ⟨"high", false, 0, 0, 60, ⟨4/5, 60, 4/5⟩, 0⟩).2 = true ∧
    (animate ⟨false, 1920, 1080, false⟩ 16
      ⟨"high", false, 0, 0, 60, ⟨4/5, 60, 4/5⟩, 0⟩).1.lastFrameTime = 16 := by
  refine ⟨by norm_num, ?_, ?_⟩ <;>
    norm_num [animate, updateFPS, String.reduceEq]

/-- C8 (amended): when battery saving is off (16.67ms target) and the call
stays inside the current FPS window (less than 1000ms since the window
start), an invocation at `lastRenderTimeMs + d` skips exactly when
`d < targetIntervalMs - 1`, or the mobile-low-quality throttle (`d < 20`)
or high-refresh throttle (`d < 12`) applies; a skip leaves
`lastRenderTimeMs` unchanged and a render sets it to the new timestamp.
In particular a call at `+10` skips without mutating `lastRenderTimeMs`
and a call at `+20` renders and updates it. -/
theorem animate_pacer_spec (env : Env) (s : AppState) (d : ℚ)
    (hb : s.batteryMode = false) (hd : d < 1000) :
    ((animate env (s.lastFrameTime + d) s).2 = false ↔
      d < 1667/100 - 1 ∨
      (env.isMobile = true ∧ s.qualityLevel = "low" ∧ d < 20) ∨
      (env.highRefresh = true ∧ d < 12)) ∧
    ((animate env (s.lastFrameTime + d) s).2 = false →
      (animate env (s.lastFrameTime + d) s).1.lastFrameTime = s.lastFrameTime) ∧
    ((animate env (s.lastFrameTime + d) s).2 = true →
      (animate env (s.lastFrameTime + d) s).1.lastFrameTime = s.lastFrameTime + d) := by
  have hnw : ¬ (1000 ≤ (s.lastFrameTime + d) - s.lastFrameTime) := by
    have hdd : s.lastFrameTime + d - s.lastFrameTime = d := by ring
    rw [hdd]
    linarith
  have hupd : (updateFPS env (s.lastFrameTime + d) s).1 =
      { s with frameCount := s.frameCount + 1 } := by
    simp only [updateFPS]
    rw [if_neg hnw]
  simp only [animate, hupd, hb]
  have hdd : s.lastFrameTime + d - s.lastFrameTime = d := by ring
  simp only [hdd]
  split_ifs with h1 h2 h3 <;>
    refine ⟨?_, ?_, ?_⟩ <;> simp_all <;> tauto

/-- C8 (witness): with a desktop environment, a call 10ms after the last
render skips and leaves the pacer clock unchanged; a call 20ms after
renders and moves the pacer clock to the call timestamp. -/
theorem animate_pacer_spec_witness :
    (animate ⟨false, 1920, 1080, false⟩ ((0 : ℚ) + 10)
      ⟨"high", false, 0, 0, 60, ⟨4/5, 60, 4/5⟩, 0⟩).2 = false ∧
    (animate ⟨false, 1920, 1080, false⟩ ((0 : ℚ) + 10)
      ⟨"high", false, 0, 0, 60, ⟨4/5, 60, 4/5⟩, 0⟩).1.lastFrameTime = 0 ∧
    (animate ⟨false, 1920, 1080, false⟩ ((0 : ℚ) + 20)
      ⟨"high", false, 0, 0, 60, ⟨4/5, 60, 4/5⟩, 0⟩).2 = true ∧
    (animate ⟨false, 1920, 1080, false⟩ ((0 : ℚ) + 20)
      ⟨"high", false, 0, 0, 60, ⟨4/5, 60, 4/5⟩, 0⟩).1.lastFrameTime = (0 : ℚ) + 20 := by
  have h10 := animate_pacer_spec ⟨false, 1920, 1080, false⟩
    ⟨"high", false, 0, 0, 60, ⟨4/5, 60, 4/5⟩, 0⟩ 10 rfl (by norm_num)
  have h20 := animate_pacer_spec ⟨false, 1920, 1080, false⟩
    ⟨"high", false, 0, 0, 60, ⟨4/5, 60, 4/5⟩, 0⟩ 20 rfl (by norm_num)
  have hskip : (animate ⟨false, 1920, 1080, false⟩ ((0 : ℚ) + 10)
      ⟨"high", false, 0, 0, 60, ⟨4/5, 60, 4/5⟩, 0⟩).2 = false :=
    h10.1.mpr (Or.inl (by norm_num))
  have hrender : (animate ⟨false, 1920, 1080, false⟩ ((0 : ℚ) + 20)
      ⟨"high", false, 0, 0, 60, ⟨4/5, 60, 4/5⟩, 0⟩).2 = true := by
    rcases Bool.eq_false_or_eq_true (animate ⟨false, 1920, 1080, false⟩ ((0 : ℚ) + 20)
        ⟨"high", false, 0, 0, 60, ⟨4/5, 60, 4/5⟩, 0⟩).2 with ht | hf
    · exact ht
    · exfalso
      rcases h20.1.mp hf with h | h | h
      · norm_num at h
      · simp at h
      · simp at h
  exact ⟨hskip, h10.2.1 hskip, hrender, h20.2.2 hrender⟩

/-- C10: switching battery-saving on through the GUI toggle, or the battery
API reporting a low or discharging battery, immediately and unconditionally
forces the level to Low and recomputes the parameters, whatever the prior
level or FPS reading; switching battery-saving off (or the API reporting a
healthy charging battery) changes neither the level nor the parameters. -/
theorem battery_controls_spec (env : Env) (s : AppState) :
    (batteryModeOnChange env true s).qualityLevel = "low" ∧
    (batteryModeOnChange env true s).uniforms =
      updateQualitySettings "low" env.isMobile env.innerWidth
        env.innerHeight s.uniforms ∧
    (batteryModeOnChange env true s).batteryMode = true ∧
    (batteryModeOnChange env false s).qualityLevel = s.qualityLevel ∧
    (batteryModeOnChange env false s).uniforms = s.uniforms ∧
    (batteryModeOnChange env false s).batteryMode = false ∧
    (∀ lvl : ℚ, ∀ chg : Bool, (lvl < 3/10 ∨ chg = false) →
      (batteryDetect env lvl chg s).qualityLevel = "low" ∧
      (batteryDetect env lvl chg s).uniforms =
        updateQualitySettings "low" env.isMobile env.innerWidth
          env.innerHeight s.uniforms) ∧
    (∀ lvl : ℚ, ∀ chg : Bool, 3/10 ≤ lvl → chg = true →
      (batteryDetect env lvl chg s).qualityLevel = s.qualityLevel ∧
      (batteryDetect env lvl chg s).uniforms = s.uniforms) := by
  refine ⟨rfl, rfl, rfl, rfl, rfl, rfl, ?_, ?_⟩
  · intro lvl chg hcase
    have hbt : (decide (lvl < 3/10) || !chg) = true := by
      rcases hcase with h | h
      · simp [h]
      · simp [h]
    simp only [batteryDetect, hbt, if_true]
    exact ⟨rfl, rfl⟩
  · intro lvl chg h1 h2
    subst h2
    have hbf : (decide (lvl < 3/10) || !true) = false := by
      simp only [Bool.not_true, Bool.or_false, decide_eq_false_iff_not, not_lt]
      exact h1
    simp only [batteryDetect, hbf, if_false]
    exact ⟨rfl, rfl⟩

/-- C10 (witness): a 20% discharged-battery report forces Ultra to Low,
while a 50% charging battery leaves Ultra untouched. -/
theorem battery_controls_spec_witness :
    (batteryDetect ⟨false, 1920, 1080, false⟩ (1/5) true
      ⟨"ultra", false, 0, 0, 60, ⟨1, 75, 3/2⟩, 0⟩).qualityLevel = "low" ∧
    (batteryDetect ⟨false, 1920, 1080, false⟩ (1/2) true
      ⟨"ultra", false, 0, 0, 60, ⟨1, 75, 3/2⟩, 0⟩).qualityLevel = "ultra" :=
  ⟨((battery_controls_spec ⟨false, 1920, 1080, false⟩
      ⟨"ultra", false, 0, 0, 60, ⟨1, 75, 3/2⟩, 0⟩).2.2.2.2.2.2.1
        (1/5) true (Or.inl (by norm_num))).1,
   ((battery_controls_spec ⟨false, 1920, 1080, false⟩
      ⟨"ultra", false, 0, 0, 60, ⟨1, 75, 3/2⟩, 0⟩).2.2.2.2.2.2.2
        (1/2) true (by norm_num) rfl).1⟩
